import Mathlib

/-
  Verification development for the WooCommerce store-management dashboard
  (src/Desbord01.py): a shallow embedding of its store-synchronization
  client (HTTP transport helpers, paginated fetcher, TTL cache wrapper,
  mutation gateway) and of the analytics aggregations, together with
  theorems settling the behavioural claims about them.

  Modelling conventions:
  - An HTTP interaction is represented by its observable outcome: either a
    response (status code, decoded JSON body, raw text) or a raised
    exception carrying its message.  The try/except blocks of the source
    become a match on the exception alternative, so every embedded
    function is total, mirroring the fact that no helper lets an
    exception escape past its boundary.
  - Machine integers of the source (status codes, page numbers, counts)
    are Nat; money amounts parsed by float(...) are modelled as Rat.
  - Python dict operations used by the analytics histogram are embedded
    as insertion-ordered association lists, matching dict semantics.
-/

namespace Desbord

/-- Outcome of a single HTTP call: a response with status code, decoded
JSON body of type a, and raw response text, or a raised exception with
its stringified message. -/
inductive ApiOutcome (a : Type) where
  | resp (status : Nat) (json : a) (text : String)
  | exc (msg : String)
deriving DecidableEq, Repr

/-- Outcome of a GET on the products collection endpoint: like ApiOutcome
but the body is a list of products and the response also carries the
optional X-WP-Total header. -/
inductive ProductsPageOutcome (p : Type) where
  | resp (status : Nat) (json : List p) (text : String) (xwpTotal : Option Nat)
  | exc (msg : String)
deriving DecidableEq, Repr

/- ===== Mutation gateway (lines 162-199, 232-243 of src/Desbord01.py) ===== -/

/-- Embedding of update_product (lines 162-173): PUT the payload; returns
(status == 200, decoded body on 200, else raw response text); an
exception yields (False, stringified exception). -/
def update_product {a : Type} (o : ApiOutcome a) : Bool × (a ⊕ String) :=
  match o with
  | ApiOutcome.resp s j t => (s == 200, if s == 200 then Sum.inl j else Sum.inr t)
  | ApiOutcome.exc m => (false, Sum.inr m)

/-- Embedding of delete_product (lines 175-186): DELETE with a force
query parameter defaulting to False; success is status == 200. -/
def delete_product {a : Type} (o : ApiOutcome a) (force : Bool := false) : Bool × (a ⊕ String) :=
  match o with
  | ApiOutcome.resp s j t => (s == 200, if s == 200 then Sum.inl j else Sum.inr t)
  | ApiOutcome.exc m => (false, Sum.inr m)

/-- Embedding of create_product (lines 188-199): POST the payload;
success is status == 201. -/
def create_product {a : Type} (o : ApiOutcome a) : Bool × (a ⊕ String) :=
  match o with
  | ApiOutcome.resp s j t => (s == 201, if s == 201 then Sum.inl j else Sum.inr t)
  | ApiOutcome.exc m => (false, Sum.inr m)

/-- Embedding of create_variation (lines 232-243): POST the variation
payload to the parent product; success is status == 201. -/
def create_variation {a : Type} (o : ApiOutcome a) : Bool × (a ⊕ String) :=
  match o with
  | ApiOutcome.resp s j t => (s == 201, if s == 201 then Sum.inl j else Sum.inr t)
  | ApiOutcome.exc m => (false, Sum.inr m)

/-- Embedding of update_review (lines 263-274): PUT the payload; returns
only the Boolean status == 200; an exception yields False. -/
def update_review {a : Type} (o : ApiOutcome a) : Bool :=
  match o with
  | ApiOutcome.resp s _ _ => s == 200
  | ApiOutcome.exc _ => false

/-- Embedding of delete_review (lines 276-287): DELETE with a force query
parameter defaulting to True; returns only the Boolean status == 200; an
exception yields False. -/
def delete_review {a : Type} (o : ApiOutcome a) (force : Bool := true) : Bool :=
  match o with
  | ApiOutcome.resp s _ _ => s == 200
  | ApiOutcome.exc _ => false

/-- The HTTP request issued by delete_review, as observed on the wire:
the review id and the force flag placed in the query parameters. -/
structure ReviewDeleteRequest where
  reviewId : Nat
  force : Bool
deriving DecidableEq, Repr

/-- Request constructor mirroring the signature of delete_review
(line 276): the force parameter defaults to True. -/
def delete_review_request (reviewId : Nat) (force : Bool := true) : ReviewDeleteRequest :=
  ReviewDeleteRequest.mk reviewId force

/-- The call site in reviews_tab (lines 1165-1174): the delete button
handler passes only credentials and the review id, never a force
argument, so the default applies. -/
def reviews_tab_delete_request (reviewId : Nat) : ReviewDeleteRequest :=
  delete_review_request reviewId

/- ===== Read-path helpers (lines 103-118, 148-160, 201-215) ===== -/

/-- Embedding of the body of get_products_cached (lines 103-118), i.e.
the uncached single-page fetch it performs on a cache miss: on a 200
response return (decoded products, X-WP-Total header defaulting to 0);
on any other status return ([], 0); on an exception return ([], 0). -/
def get_products_page {p : Type} (o : ProductsPageOutcome p) : List p × Nat :=
  match o with
  | ProductsPageOutcome.resp s j _ total => if s == 200 then (j, total.getD 0) else ([], 0)
  | ProductsPageOutcome.exc _ => ([], 0)

/-- Embedding of get_product_by_id (lines 148-160): on a 200 response
return the decoded product, on any other status return None, on an
exception return None. -/
def get_product_by_id {a : Type} (o : ApiOutcome a) : Option a :=
  match o with
  | ApiOutcome.resp s j _ => if s == 200 then some j else none
  | ApiOutcome.exc _ => none

/-- Embedding of get_orders (lines 201-215): on a 200 response return the
decoded order list, on any other status return [], on an exception
return []. -/
def get_orders {a : Type} (o : ApiOutcome (List a)) : List a :=
  match o with
  | ApiOutcome.resp s j _ => if s == 200 then j else []
  | ApiOutcome.exc _ => []

/- ===== Analytics: revenue metrics (lines 976-981) ===== -/

/-- Embedding of total_revenue (line 976): the left fold of addition over
the parsed order totals, each order total modelled as a rational. -/
def total_revenue (orders : List Rat) : Rat :=
  List.foldl (fun acc t => acc + t) 0 orders

/-- Embedding of avg_order (line 980): total_revenue divided by the order
count if the order list is non-empty, else 0. -/
def avg_order (orders : List Rat) : Rat :=
  if orders.isEmpty then 0 else total_revenue orders / (orders.length : Rat)

/- ===== Analytics: visibility histogram (lines 988-991) ===== -/

/-- Python dict lookup with default 0: visibility_counts.get(vis, 0). -/
def dictGet (l : List (String × Nat)) (k : String) : Nat :=
  match List.find? (fun kv => kv.1 == k) l with
  | some kv => kv.2
  | none => 0

/-- Python dict assignment visibility_counts[vis] = v on an
insertion-ordered association list with unique keys: overwrite the value
of the key in place if present, else append the new key at the end. -/
def dictSet : List (String × Nat) → String → Nat → List (String × Nat)
  | [], k, v => [(k, v)]
  | kv :: rest, k, v => if kv.1 == k then (k, v) :: rest else kv :: dictSet rest k v

/-- The initial histogram dict of line 988. -/
def initVisibilityCounts : List (String × Nat) :=
  [("visible", 0), ("catalog", 0), ("search", 0), ("hidden", 0)]

/-- One iteration of the histogram loop (lines 990-991): each product is
represented by its optional catalog_visibility field; a missing field
reads as "visible" via p.get(..., "visible"), and the bucket for the
read value is bumped via .get(vis, 0) + 1. -/
def visStep (counts : List (String × Nat)) (p : Option String) : List (String × Nat) :=
  dictSet counts (Option.getD p "visible") (dictGet counts (Option.getD p "visible") + 1)

/-- Embedding of the histogram loop (lines 988-991). -/
def visibilityCounts (products : List (Option String)) : List (String × Nat) :=
  List.foldl visStep initVisibilityCounts products

/- ===== Variation pipeline (lines 692-722) and remote store state ===== -/

/-- The variation payload var_data assembled on lines 704-714. -/
structure VariationData where
  regular_price : String
  sale_price : String
  sku : String
  stock_quantity : Int
  manage_stock : Bool
  attributes : List (String × String)
  image : Option String
deriving DecidableEq, Repr

/-- The slice of remote store state the pipeline touches: the type of the
parent product and its list of variations. -/
structure StoreState where
  ptype : String
  variations : List VariationData
deriving DecidableEq, Repr

/-- A request the pipeline can issue against the store. -/
inductive StoreRequest where
  | promoteToVariable (productId : Nat)
  | createVariationCall (productId : Nat) (data : VariationData)
deriving DecidableEq, Repr

/-- Effect on the store of the promotion request update_product
(type variable) of lines 695-701: when the call succeeds the product
type becomes "variable", otherwise the state is unchanged. -/
def promote_step (s : StoreState) (ok : Bool) : StoreState :=
  if ok then StoreState.mk "variable" s.variations else s

/-- Effect on the store of the create_variation request of lines 716-722:
when the call succeeds the variation is appended, otherwise the state is
unchanged. -/
def create_variation_step (s : StoreState) (ok : Bool) (v : VariationData) : StoreState :=
  if ok then StoreState.mk s.ptype (s.variations ++ [v]) else s

/-- Embedding of the Add Variation form handler (lines 692-722): if the
product type is not "variable", first issue the promotion request, whose
result is discarded (lines 694-701), then always issue the variation
creation request.  Returns the final store state and the trace of issued
requests, each paired with the store state it was issued against.
promoteOk and createOk say whether the respective remote call succeeds. -/
def add_variation_pipeline (pid : Nat) (s : StoreState) (promoteOk createOk : Bool)
    (v : VariationData) : StoreState × List (StoreRequest × StoreState) :=
  if s.ptype == "variable" then
    (create_variation_step s createOk v, [(StoreRequest.createVariationCall pid v, s)])
  else
    let s1 := promote_step s promoteOk
    (create_variation_step s1 createOk v,
      [(StoreRequest.promoteToVariable pid, s), (StoreRequest.createVariationCall pid v, s1)])

/- ===== Paginated fetcher get_all_products (lines 120-146) ===== -/

/-- The loop body of get_all_products, instrumented with a request
counter.  The source runs while True; the embedding adds explicit fuel,
consumed once per iteration, so that the function is total: on a server
that eventually serves an empty page or a failure, any sufficiently
large fuel gives the behaviour of the unbounded loop.  One GET is issued
per iteration; on a 200 response with a non-empty body the products are
appended and the loop moves to the next page, on a 200 response with an
empty body the loop stops, and on any other status or an exception the
loop stops, returning what was collected so far (lines 134-144). -/
def getAllGo {p : Type} (server : Nat → ProductsPageOutcome p) :
    Nat → Nat → List p → Nat → List p × Nat
  | 0, _, acc, reqs => (acc, reqs)
  | fuel + 1, page, acc, reqs =>
    match server page with
    | ProductsPageOutcome.resp status products _ _ =>
      if status == 200 then
        if products.isEmpty then (acc, reqs + 1)
        else getAllGo server fuel (page + 1) (acc ++ products) (reqs + 1)
      else (acc, reqs + 1)
    | ProductsPageOutcome.exc _ => (acc, reqs + 1)

/-- Embedding of get_all_products (lines 120-146): run the pagination
loop from page 1 with an empty accumulator.  The first component is the
returned product list; the second counts the page requests issued
(instrumentation: the source returns only the list). -/
def get_all_products {p : Type} (server : Nat → ProductsPageOutcome p) (fuel : Nat) :
    List p × Nat :=
  getAllGo server fuel 1 [] 0

/-- A remote store holding the item list L paginated with page size n:
page p (1-based) answers 200 with the p-th chunk of n items, so pages
past the data answer 200 with an empty list. -/
def serverOf {p : Type} (n : Nat) (L : List p) (page : Nat) : ProductsPageOutcome p :=
  ProductsPageOutcome.resp 200 (List.take n (List.drop ((page - 1) * n) L)) "" (some L.length)

/-- Like serverOf, but the k-th page request produces the outcome bad
instead (a non-200 response or an exception). -/
def failServerOf {p : Type} (n : Nat) (L : List p) (k : Nat) (bad : ProductsPageOutcome p)
    (page : Nat) : ProductsPageOutcome p :=
  if page == k then bad else serverOf n L page

/-- An outcome on which the pagination loop stops without collecting:
a non-200 response or an exception. -/
def isPageFailure {p : Type} : ProductsPageOutcome p → Prop
  | ProductsPageOutcome.resp status _ _ _ => status ≠ 200
  | ProductsPageOutcome.exc _ => True

/- ===== TTL cache layer around the single-page fetch ===== -/

/-- The cache key tuple of get_products_cached (line 104): store
endpoint, consumer key, consumer secret, page, per_page. -/
abbrev CacheKey := String × String × String × Nat × Nat

/-- Cache state: insertion time stamped entries keyed by CacheKey. -/
abbrev Cache (v : Type) := List (CacheKey × v × Nat)

/-- Modelled from the spec: the cache machinery itself is the streamlit
decorator st.cache_data(ttl=300) applied on line 103, external to this
repository.  Per the spec contract, a call with a given key tuple
returns the previously stored result if its age is under the TTL of 300
seconds, else performs a live fetch and stores the new result with a
fresh timestamp.  The third component of the result records whether a
live (network) fetch was performed. -/
def get_or_fetch {v : Type} (fetch : CacheKey → v) (c : Cache v) (k : CacheKey)
    (now : Nat) : v × Cache v × Bool :=
  match List.find? (fun e => e.1 == k) c with
  | some e =>
    if now - e.2.2 < 300 then (e.2.1, c, false)
    else (fetch k, (k, fetch k, now) :: List.filter (fun e2 => !(e2.1 == k)) c, true)
  | none => (fetch k, (k, fetch k, now) :: c, true)

/-- Modelled from the spec: get_products_cached.clear() (the invalidate
operation) drops all entries unconditionally. -/
def invalidate {v : Type} (c : Cache v) : Cache v := []

/-- The cached products fetch: get_or_fetch wrapped around the uncached
page fetch get_products_page, with the network modelled as a map from
key tuples to HTTP outcomes. -/
def get_products_cached {p : Type} (network : CacheKey → ProductsPageOutcome p)
    (c : Cache (List p × Nat)) (k : CacheKey) (now : Nat) :
    (List p × Nat) × Cache (List p × Nat) × Bool :=
  get_or_fetch (fun key => get_products_page (network key)) c k now

/- ===== UI mutation flows and their cache effects ===== -/

/-- Lines 615-627: the product edit form submit handler; on success it
clears the product cache, on failure it leaves it untouched. -/
def listing_update_submit {v a : Type} (o : ApiOutcome a) (c : Cache v) : Cache v :=
  if (update_product o).1 then invalidate c else c

/-- Lines 716-728: the add-variation submit handler; on success it
clears the product cache, on failure it leaves it untouched. -/
def add_variation_submit {v a : Type} (o : ApiOutcome a) (c : Cache v) : Cache v :=
  if (create_variation o).1 then invalidate c else c

/-- Lines 741-755: the move-to-trash button (delete_product with
force=False); on success it clears the product cache. -/
def trash_product_click {v a : Type} (o : ApiOutcome a) (c : Cache v) : Cache v :=
  if (delete_product o false).1 then invalidate c else c

/-- Lines 757-773: the permanent delete button (delete_product with
force=True); on success it clears the product cache. -/
def permanent_delete_click {v a : Type} (o : ApiOutcome a) (c : Cache v) : Cache v :=
  if (delete_product o true).1 then invalidate c else c

/-- Lines 924-942: the bulk upload loop ends with an unconditional
cache clear after the batch, whatever the per-row outcomes were. -/
def bulk_upload_finish {v : Type} (c : Cache v) : Cache v :=
  invalidate c

/-- Lines 1141-1151: the review approve button; on success it only shows
a message and reruns the page — the cache is never touched.  Returns the
cache after the handler and whether the mutation succeeded. -/
def review_approve_click {v a : Type} (o : ApiOutcome a) (c : Cache v) : Cache v × Bool :=
  (c, update_review o)

/-- Lines 1153-1163: the review spam button; same shape as approve, no
cache action on either path. -/
def review_spam_click {v a : Type} (o : ApiOutcome a) (c : Cache v) : Cache v × Bool :=
  (c, update_review o)

/-- Lines 1165-1174: the review delete button; on success it only shows
a message and reruns the page — the cache is never touched. -/
def review_delete_click {v a : Type} (o : ApiOutcome a) (c : Cache v) : Cache v × Bool :=
  (c, delete_review o)

/- ===================== Theorems ===================== -/

/- ----- Helper lemmas for the visibility histogram ----- -/

theorem dictGet_nil (k2 : String) : dictGet [] k2 = 0 := rfl

theorem dictGet_cons (kv : String × Nat) (rest : List (String × Nat)) (k2 : String) :
    dictGet (kv :: rest) k2 = if kv.1 = k2 then kv.2 else dictGet rest k2 := by
  by_cases h : kv.1 = k2 <;> simp [dictGet, List.find?_cons, h]

theorem dictSet_cons (kv : String × Nat) (rest : List (String × Nat)) (k : String) (v : Nat) :
    dictSet (kv :: rest) k v = if kv.1 = k then (k, v) :: rest else kv :: dictSet rest k v := by
  simp only [dictSet, beq_iff_eq]

theorem dictGet_dictSet (l : List (String × Nat)) (k k2 : String) (v : Nat) :
    dictGet (dictSet l k v) k2 = if k2 = k then v else dictGet l k2 := by
  induction l with
  | nil =>
    by_cases h : k2 = k
    · simp [dictSet, dictGet_cons, dictGet_nil, h]
    · simp [dictSet, dictGet_cons, dictGet_nil, h]
      intro h2
      exact absurd h2.symm h
  | cons kv rest ih =>
    rw [dictSet_cons]
    by_cases hk : kv.1 = k
    · rw [if_pos hk, dictGet_cons, dictGet_cons]
      by_cases h2 : k2 = k
      · simp [h2]
      · rw [if_neg (fun h3 : k = k2 => h2 h3.symm), if_neg h2,
          if_neg (fun h3 : kv.1 = k2 => h2 (hk ▸ h3 : k = k2).symm)]
    · rw [if_neg hk, dictGet_cons, dictGet_cons, ih]
      by_cases h2 : kv.1 = k2
      · have hne : ¬ k2 = k := fun h3 => hk (h2.trans h3)
        rw [if_pos h2, if_neg hne, if_pos h2]
      · rw [if_neg h2, if_neg h2]

theorem dictGet_foldl_visStep (ps : List (Option String)) :
    ∀ counts k, dictGet (List.foldl visStep counts ps) k =
      dictGet counts k + List.countP (fun p => Option.getD p "visible" == k) ps := by
  induction ps with
  | nil => intro counts k; simp
  | cons p rest ih =>
    intro counts k
    rw [List.foldl_cons, ih, List.countP_cons]
    unfold visStep
    rw [dictGet_dictSet]
    by_cases h : k = Option.getD p "visible"
    · simp [h]
      omega
    · have h2 : ¬ (Option.getD p "visible" == k) = true := by
        simp only [beq_iff_eq]
        exact fun h3 => h h3.symm
      simp [h, h2]

theorem dictGet_initVisibilityCounts (k : String) : dictGet initVisibilityCounts k = 0 := by
  unfold initVisibilityCounts
  rw [dictGet_cons, dictGet_cons, dictGet_cons, dictGet_cons, dictGet_nil]
  repeat' split
  all_goals rfl

/- ----- Helper lemmas for the pagination loop ----- -/

theorem ceil_div_succ (n len : Nat) (hn : 0 < n) (hlen : 0 < len) :
    (len + n - 1) / n = ((len - n) + n - 1) / n + 1 := by
  rcases le_or_lt n len with hle | hlt
  · have h1 : len + n - 1 = (((len - n) + n - 1)) + n := by omega
    rw [h1, Nat.add_div_right _ hn]
  · have h1 : len - n = 0 := by omega
    rw [h1]
    have h2 : (0 + n - 1) / n = 0 := Nat.div_eq_of_lt (by omega)
    have h3 : (len + n - 1) / n = 1 := by
      apply Nat.div_eq_of_lt_le
      · omega
      · have h4 : Nat.succ 1 * n = n + n := by ring
        omega
    omega

theorem getAllGo_serverOf {p : Type} (n : Nat) (hn : 0 < n) (L : List p) :
    ∀ fuel m acc reqs,
      ((L.length - m * n) + n - 1) / n + 1 ≤ fuel →
      getAllGo (serverOf n L) fuel (m + 1) acc reqs =
        (acc ++ List.drop (m * n) L,
         reqs + (((L.length - m * n) + n - 1) / n + 1)) := by
  intro fuel
  induction fuel with
  | zero =>
    intro m acc reqs hfuel
    exact absurd hfuel (Nat.not_succ_le_zero _)
  | succ fuel ih =>
    intro m acc reqs hfuel
    rw [getAllGo]
    simp only [serverOf, Nat.add_sub_cancel, beq_self_eq_true, if_true]
    cases hempty : (List.take n (List.drop (m * n) L)).isEmpty with
    | true =>
      rw [if_pos rfl]
      have hdrop : List.drop (m * n) L = [] := by
        rcases List.take_eq_nil_iff.mp (List.isEmpty_iff.mp hempty) with h | h
        · exact absurd h (by omega)
        · exact h
      have hlen0 : L.length - m * n = 0 := by
        have := List.drop_eq_nil_iff.mp hdrop
        omega
      have h0 : (0 + n - 1) / n = 0 := Nat.div_eq_of_lt (by omega)
      rw [hdrop, hlen0, h0]
      simp
    | false =>
      rw [if_neg (by simp)]
      have hne : List.take n (List.drop (m * n) L) ≠ [] := by
        intro h
        rw [h] at hempty
        exact absurd hempty (by simp)
      have hlt : m * n < L.length := by
        by_contra hge
        apply hne
        have hd : List.drop (m * n) L = [] := List.drop_eq_nil_iff.mpr (by omega)
        rw [hd, List.take_nil]
      have hmn : (m + 1) * n = m * n + n := by ring
      have hlen_pos : 0 < L.length - m * n := by omega
      have hkey : ((L.length - m * n) + n - 1) / n =
          ((L.length - (m + 1) * n) + n - 1) / n + 1 := by
        have h1 : L.length - (m + 1) * n = (L.length - m * n) - n := by omega
        rw [h1]
        exact ceil_div_succ n _ hn hlen_pos
      rw [ih (m + 1) (acc ++ List.take n (List.drop (m * n) L)) (reqs + 1) (by omega)]
      simp only [Prod.mk.injEq]
      constructor
      · rw [List.append_assoc]
        congr 1
        have hdd : List.drop ((m + 1) * n) L = List.drop n (List.drop (m * n) L) := by
          rw [List.drop_drop]
          congr 1
        rw [hdd, List.take_append_drop]
      · omega

theorem get_all_products_serverOf {p : Type} (n : Nat) (hn : 0 < n) (L : List p)
    (fuel : Nat) (hfuel : (L.length + n - 1) / n + 1 ≤ fuel) :
    get_all_products (serverOf n L) fuel = (L, (L.length + n - 1) / n + 1) := by
  have h := getAllGo_serverOf n hn L fuel 0 [] 0 (by simpa using hfuel)
  simpa [get_all_products] using h

theorem getAllGo_bad {p : Type} (server : Nat → ProductsPageOutcome p) (fuel page : Nat)
    (acc : List p) (reqs : Nat) (hbad : isPageFailure (server page)) :
    getAllGo server (fuel + 1) page acc reqs = (acc, reqs + 1) := by
  rw [getAllGo]
  cases hs : server page with
  | resp status products t total =>
    rw [hs] at hbad
    have h2 : (status == 200) = false := by
      simp only [beq_eq_false_iff_ne]
      exact hbad
    simp [h2]
  | exc m => rfl

theorem getAllGo_failServerOf {p : Type} (n : Nat) (hn : 0 < n) (L : List p) (k : Nat)
    (bad : ProductsPageOutcome p) (hbad : isPageFailure bad)
    (hk : 1 ≤ k) (hkL : (k - 1) * n < L.length) :
    ∀ fuel m acc reqs, m + 1 ≤ k → k - (m + 1) + 1 ≤ fuel →
      getAllGo (failServerOf n L k bad) fuel (m + 1) acc reqs =
        (acc ++ List.take ((k - (m + 1)) * n) (List.drop (m * n) L),
         reqs + (k - (m + 1) + 1)) := by
  intro fuel
  induction fuel with
  | zero =>
    intro m acc reqs hm hfuel
    exact absurd hfuel (Nat.not_succ_le_zero _)
  | succ fuel ih =>
    intro m acc reqs hm hfuel
    by_cases hmk : m + 1 = k
    · have hserv : failServerOf n L k bad (m + 1) = bad := by
        simp [failServerOf, hmk]
      have h := getAllGo_bad (failServerOf n L k bad) fuel (m + 1) acc reqs
        (by rw [hserv]; exact hbad)
      rw [h]
      have h0 : k - (m + 1) = 0 := by omega
      rw [h0]
      simp
    · have hlt : m + 1 < k := by omega
      have hserv : failServerOf n L k bad (m + 1) = serverOf n L (m + 1) := by
        simp [failServerOf]
        intro h
        exact absurd h hmk
      rw [getAllGo, hserv]
      simp only [serverOf, Nat.add_sub_cancel, beq_self_eq_true, if_true]
      have hmn : (m + 1) * n = m * n + n := by ring
      have hmlt : m * n < L.length := by
        have h1 : m * n < (m + 1) * n := by omega
        have h2 : (m + 1) * n ≤ (k - 1) * n := by
          apply Nat.mul_le_mul_right
          omega
        omega
      have hne : List.take n (List.drop (m * n) L) ≠ [] := by
        intro h
        rcases List.take_eq_nil_iff.mp h with h1 | h1
        · omega
        · have := List.drop_eq_nil_iff.mp h1
          omega
      rw [if_neg (by simp [List.isEmpty_iff, hne])]
      rw [ih (m + 1) (acc ++ List.take n (List.drop (m * n) L)) (reqs + 1)
        (by omega) (by omega)]
      simp only [Prod.mk.injEq]
      constructor
      · rw [List.append_assoc]
        congr 1
        have hdd : List.drop ((m + 1) * n) L = List.drop n (List.drop (m * n) L) := by
          rw [List.drop_drop]
          congr 1
        rw [hdd]
        rw [← List.take_add]
        congr 1
        have h1 : k - (m + 1) = (k - (m + 1 + 1)) + 1 := by omega
        rw [h1]
        ring
      · omega

theorem get_all_products_failServerOf {p : Type} (n : Nat) (hn : 0 < n) (L : List p)
    (k : Nat) (bad : ProductsPageOutcome p) (hbad : isPageFailure bad)
    (hk : 1 ≤ k) (hkL : (k - 1) * n < L.length) (fuel : Nat) (hfuel : k ≤ fuel) :
    get_all_products (failServerOf n L k bad) fuel = (List.take ((k - 1) * n) L, k) := by
  have h := getAllGo_failServerOf n hn L k bad hbad hk hkL fuel 0 [] 0 (by omega) (by omega)
  simp only [Nat.zero_mul, List.drop_zero, List.nil_append, Nat.zero_add] at h
  rw [get_all_products, h]
  congr 1
  omega

/- ----- C1 ----- -/

/-- C1 counterexample: with page size N = 1 and a store of T = 1 item,
no page request fails, the fetch returns the single item, but the loop
issues 2 page requests (the data page, then the empty probe page that
stops it), not ceil(T/N) = 1 as the claim states. -/
theorem C1_counterexample :
    get_all_products (serverOf 1 [(0 : Nat)]) 10 = ([0], 2) ∧
    (get_all_products (serverOf 1 [(0 : Nat)]) 10).2 ≠ (1 + 1 - 1) / 1 := by
  constructor
  · rfl
  · decide

/-- C1 amended: for every page size N > 0 and store content L (of T =
L.length items), when no page request fails get_all_products returns
exactly the T items in order and issues exactly ceil(T/N) + 1 page
requests (the extra one is the empty probe page that terminates the
loop); and if the k-th page request fails (non-200 status or exception)
while earlier pages did not exhaust the data ((k-1)*N < T), it returns
the strict prefix made of the (k-1)*N items of the k-1 successful
pages, having issued k requests and surfacing no error.  fuel bounds
the unbounded while loop of the source and is irrelevant once large
enough. -/
theorem C1_amended_pagination {p : Type} (n : Nat) (L : List p) (fuel k : Nat)
    (bad : ProductsPageOutcome p) (hn : 0 < n)
    (hfuel : (L.length + n - 1) / n + 1 ≤ fuel) :
    get_all_products (serverOf n L) fuel = (L, (L.length + n - 1) / n + 1) ∧
    (isPageFailure bad → 1 ≤ k → (k - 1) * n < L.length → k ≤ fuel →
      get_all_products (failServerOf n L k bad) fuel = (List.take ((k - 1) * n) L, k) ∧
      List.take ((k - 1) * n) L <+: L ∧
      (List.take ((k - 1) * n) L).length < L.length) := by
  refine ⟨get_all_products_serverOf n hn L fuel hfuel, fun hbad hk hkL hkf => ?_⟩
  refine ⟨get_all_products_failServerOf n hn L k bad hbad hk hkL fuel hkf,
    List.take_prefix _ _, ?_⟩
  rw [List.length_take]
  omega

/-- Witness for C1: page size 2 over 5 items gives all 5 items in 4
requests; the same store failing at page 2 yields the 2-item strict
prefix in 2 requests. -/
theorem C1_witness :
    get_all_products (serverOf 2 (List.range 5)) 10 = (List.range 5, 4) ∧
    get_all_products (failServerOf 2 (List.range 5) 2 (ProductsPageOutcome.exc "boom")) 10 =
      (List.take 2 (List.range 5), 2) ∧
    List.take 2 (List.range 5) <+: List.range 5 ∧
    (List.take 2 (List.range 5)).length < (List.range 5).length := by
  have h := C1_amended_pagination 2 (List.range 5) 10 2 (ProductsPageOutcome.exc "boom")
    (by decide) (by decide)
  have h2 := h.2 trivial (by decide) (by decide) (by decide)
  exact ⟨h.1, h2.1, h2.2.1, h2.2.2⟩

/- ----- C2 ----- -/

/-- C2: for every response status s and body b, create_product returns
success=true iff s = 201, and update_product and delete_product return
success=true iff s = 200; in every other case they return success=false
paired with the raw response text preserved verbatim, and none of the
three raises past its boundary: an exception becomes
(false, stringified exception). -/
theorem C2_mutation_gateway_statuses {a : Type} (s : Nat) (j : a) (t m : String)
    (force : Bool) :
    ((create_product (ApiOutcome.resp s j t)).1 = true ↔ s = 201) ∧
    ((update_product (ApiOutcome.resp s j t)).1 = true ↔ s = 200) ∧
    ((delete_product (ApiOutcome.resp s j t) force).1 = true ↔ s = 200) ∧
    (s ≠ 201 → create_product (ApiOutcome.resp s j t) = (false, Sum.inr t)) ∧
    (s ≠ 200 → update_product (ApiOutcome.resp s j t) = (false, Sum.inr t)) ∧
    (s ≠ 200 → delete_product (ApiOutcome.resp s j t) force = (false, Sum.inr t)) ∧
    (create_product (ApiOutcome.exc m : ApiOutcome a) = (false, Sum.inr m)) ∧
    (update_product (ApiOutcome.exc m : ApiOutcome a) = (false, Sum.inr m)) ∧
    (delete_product (ApiOutcome.exc m : ApiOutcome a) force = (false, Sum.inr m)) := by
  refine ⟨by simp [create_product], by simp [update_product], by simp [delete_product],
    fun h => by simp [create_product, h], fun h => by simp [update_product, h],
    fun h => by simp [delete_product, h], rfl, rfl, rfl⟩

/-- Witness for C2 at concrete inputs. -/
theorem C2_witness :
    ((create_product (ApiOutcome.resp 201 (0 : Nat) "ok")).1 = true ↔ 201 = 201) ∧
    ((update_product (ApiOutcome.resp 201 (0 : Nat) "ok")).1 = true ↔ 201 = 200) ∧
    ((delete_product (ApiOutcome.resp 201 (0 : Nat) "ok") false).1 = true ↔ 201 = 200) ∧
    (201 ≠ 201 → create_product (ApiOutcome.resp 201 (0 : Nat) "ok") = (false, Sum.inr "ok")) ∧
    (201 ≠ 200 → update_product (ApiOutcome.resp 201 (0 : Nat) "ok") = (false, Sum.inr "ok")) ∧
    (201 ≠ 200 →
      delete_product (ApiOutcome.resp 201 (0 : Nat) "ok") false = (false, Sum.inr "ok")) ∧
    (create_product (ApiOutcome.exc "boom" : ApiOutcome Nat) = (false, Sum.inr "boom")) ∧
    (update_product (ApiOutcome.exc "boom" : ApiOutcome Nat) = (false, Sum.inr "boom")) ∧
    (delete_product (ApiOutcome.exc "boom" : ApiOutcome Nat) false = (false, Sum.inr "boom")) :=
  C2_mutation_gateway_statuses 201 0 "ok" "boom" false

/- ----- C6 ----- -/

/-- C6 counterexample: a product whose catalog_visibility is present but
unknown ("weird") is NOT counted under "visible": the visible bucket
stays 0 and a fresh "weird" bucket receives the count, refuting the
claim that any unknown value is counted under "visible". -/
theorem C6_counterexample :
    dictGet (visibilityCounts [some "weird"]) "visible" = 0 ∧
    dictGet (visibilityCounts [some "weird"]) "weird" = 1 := by
  constructor <;> rfl

/-- C6 amended: for every product list, a product with a MISSING
catalog_visibility is counted under "visible", while a present value v
(known or unknown) is counted under the bucket named v: for every key k
the final count of bucket k is the number of products whose
defaulted visibility equals k.  In particular, for visibility values
[visible, hidden, catalog, search, visible, missing] the histogram
reports visible = 3, hidden = 1, catalog = 1, search = 1. -/
theorem C6_amended_visibility_histogram (ps : List (Option String)) (k : String) :
    dictGet (visibilityCounts ps) k =
      List.countP (fun p => Option.getD p "visible" == k) ps ∧
    dictGet (visibilityCounts
      [some "visible", some "hidden", some "catalog", some "search", some "visible", none])
      "visible" = 3 ∧
    dictGet (visibilityCounts
      [some "visible", some "hidden", some "catalog", some "search", some "visible", none])
      "hidden" = 1 ∧
    dictGet (visibilityCounts
      [some "visible", some "hidden", some "catalog", some "search", some "visible", none])
      "catalog" = 1 ∧
    dictGet (visibilityCounts
      [some "visible", some "hidden", some "catalog", some "search", some "visible", none])
      "search" = 1 := by
  refine ⟨?_, rfl, rfl, rfl, rfl⟩
  unfold visibilityCounts
  rw [dictGet_foldl_visStep, dictGet_initVisibilityCounts, Nat.zero_add]

/- ----- C7 ----- -/

/-- C7: variation creation against a product whose type is not
"variable" is the two-step sequence (promote to "variable", then create
the variation); when the promotion succeeds and the creation fails, the
final state is a product of type "variable" with zero variations, and
the trace contains exactly those two requests — no rollback request. -/
theorem C7_partial_promotion_state (pid : Nat) (s : StoreState) (v : VariationData)
    (h1 : s.ptype ≠ "variable") (h2 : s.variations = []) :
    add_variation_pipeline pid s true false v =
      (StoreState.mk "variable" [],
        [(StoreRequest.promoteToVariable pid, s),
         (StoreRequest.createVariationCall pid v, StoreState.mk "variable" [])]) := by
  simp [add_variation_pipeline, promote_step, create_variation_step, h1, h2]

/-- Witness for C7: a concrete simple product with no variations. -/
theorem C7_witness :
    add_variation_pipeline 7 (StoreState.mk "simple" []) true false
        (VariationData.mk "10" "8" "SKU1" 5 true [("Size", "M")] none) =
      (StoreState.mk "variable" [],
        [(StoreRequest.promoteToVariable 7, StoreState.mk "simple" []),
         (StoreRequest.createVariationCall 7
            (VariationData.mk "10" "8" "SKU1" 5 true [("Size", "M")] none),
          StoreState.mk "variable" [])]) :=
  C7_partial_promotion_state 7 (StoreState.mk "simple" [])
    (VariationData.mk "10" "8" "SKU1" 5 true [("Size", "M")] none) (by decide) rfl

/- ----- C10 ----- -/

/-- C10: in the add-variation pipeline the promotion result is
discarded: whatever the promotion outcome, a variation-creation request
appears in the trace; and when the promotion fails on a non-variable
product, the creation request is issued against the still-unpromoted
state s itself. -/
theorem C10_promotion_result_discarded (pid : Nat) (s : StoreState) (pOk cOk : Bool)
    (v : VariationData) (h : s.ptype ≠ "variable") :
    (∃ s2, (StoreRequest.createVariationCall pid v, s2) ∈
      (add_variation_pipeline pid s pOk cOk v).2) ∧
    (add_variation_pipeline pid s false cOk v).2 =
      [(StoreRequest.promoteToVariable pid, s),
       (StoreRequest.createVariationCall pid v, s)] := by
  constructor
  · cases pOk <;>
      simp [add_variation_pipeline, promote_step, h]
  · simp [add_variation_pipeline, promote_step, h]

/-- Witness for C10 at a concrete simple product. -/
theorem C10_witness :
    (∃ s2, (StoreRequest.createVariationCall 3
        (VariationData.mk "10" "8" "SKU1" 5 true [("Size", "M")] none), s2) ∈
      (add_variation_pipeline 3 (StoreState.mk "simple" []) false true
        (VariationData.mk "10" "8" "SKU1" 5 true [("Size", "M")] none)).2) ∧
    (add_variation_pipeline 3 (StoreState.mk "simple" []) false true
        (VariationData.mk "10" "8" "SKU1" 5 true [("Size", "M")] none)).2 =
      [(StoreRequest.promoteToVariable 3, StoreState.mk "simple" []),
       (StoreRequest.createVariationCall 3
          (VariationData.mk "10" "8" "SKU1" 5 true [("Size", "M")] none),
        StoreState.mk "simple" [])] :=
  C10_promotion_result_discarded 3 (StoreState.mk "simple" []) false true
    (VariationData.mk "10" "8" "SKU1" 5 true [("Size", "M")] none) (by decide)

/- ----- C8 ----- -/

/-- C8: the average order value is the sum of the order totals divided
by the order count when the count is positive, and 0 for zero orders;
for totals [100, 300] the average is 200. -/
theorem C8_avg_order_value (orders : List Rat) (h : orders ≠ []) :
    avg_order orders = orders.sum / (orders.length : Rat) ∧
    avg_order [] = 0 ∧
    avg_order [(100 : Rat), 300] = 200 := by
  refine ⟨?_, rfl, ?_⟩
  · have hne : orders.isEmpty = false := by
      cases orders with
      | nil => exact absurd rfl h
      | cons x xs => rfl
    rw [avg_order, hne, if_neg (by simp), total_revenue]
    rw [List.sum_eq_foldl]
  · show (if ([(100 : Rat), 300] : List Rat).isEmpty then (0 : Rat)
      else total_revenue [(100 : Rat), 300] / (([(100 : Rat), 300] : List Rat).length : Rat)) = 200
    norm_num [total_revenue, List.foldl]

/-- Witness for C8 at the concrete order list [100, 300]. -/
theorem C8_witness :
    avg_order [(100 : Rat), 300] = ([(100 : Rat), 300] : List Rat).sum /
      (([(100 : Rat), 300] : List Rat).length : Rat) ∧
    avg_order [] = 0 ∧
    avg_order [(100 : Rat), 300] = 200 :=
  C8_avg_order_value [(100 : Rat), 300] (by simp)

/- ----- C9 ----- -/

/-- C9: delete_review performs a force deletion by default: its force
parameter defaults to True, the reviews tab delete button invokes it
without overriding that default, and its result is only the Boolean
success flag status == 200 (False on exception) with no payload or
error text. -/
theorem C9_delete_review_defaults {a : Type} (rid s : Nat) (j : a) (t m : String) :
    (reviews_tab_delete_request rid).force = true ∧
    reviews_tab_delete_request rid = delete_review_request rid true ∧
    delete_review (ApiOutcome.resp s j t) = (s == 200) ∧
    delete_review (ApiOutcome.exc m : ApiOutcome a) = false := by
  exact ⟨rfl, rfl, rfl, rfl⟩

/- ----- C3 ----- -/

/-- C3: for every cache key tuple, immediately after invalidate() the
next fetch for any key performs a live network call (third component
true) and stores the fresh result with the new timestamp t0; a second
fetch with the same key whose age t1 - t0 since insertion is under the
300-second TTL returns the identical stored (entities, total) result
without performing a network call (third component false) and leaves
the cache unchanged. -/
theorem C3_cache_ttl_roundtrip {p : Type} (network : CacheKey → ProductsPageOutcome p)
    (c0 : Cache (List p × Nat)) (k : CacheKey) (t0 t1 : Nat) (h : t1 - t0 < 300) :
    get_products_cached network (invalidate c0) k t0 =
      (get_products_page (network k), [(k, get_products_page (network k), t0)], true) ∧
    get_products_cached network [(k, get_products_page (network k), t0)] k t1 =
      (get_products_page (network k), [(k, get_products_page (network k), t0)], false) := by
  constructor
  · rfl
  · simp [get_products_cached, get_or_fetch, List.find?_cons, h]

/-- Witness for C3 at a concrete network, key and pair of times. -/
theorem C3_witness :
    get_products_cached (fun _ => ProductsPageOutcome.resp 200 [(5 : Nat)] "" (some 1))
        (invalidate []) ("https://shop.example", "ck", "cs", 1, 20) 100 =
      (([5], 1), [(("https://shop.example", "ck", "cs", 1, 20), ([5], 1), 100)], true) ∧
    get_products_cached (fun _ => ProductsPageOutcome.resp 200 [(5 : Nat)] "" (some 1))
        [(("https://shop.example", "ck", "cs", 1, 20), ([5], 1), 100)]
        ("https://shop.example", "ck", "cs", 1, 20) 250 =
      (([5], 1), [(("https://shop.example", "ck", "cs", 1, 20), ([5], 1), 100)], false) :=
  C3_cache_ttl_roundtrip (fun _ => ProductsPageOutcome.resp 200 [(5 : Nat)] "" (some 1))
    [] ("https://shop.example", "ck", "cs", 1, 20) 100 250 (by decide)

/- ----- C4 ----- -/

/-- C4 counterexample: a successful review deletion (status 200, so
delete_review returns true) leaves a non-empty product cache untouched:
the reviews tab handler never invalidates the cache, refuting the claim
that every successful mutation, including review mutations, drops all
cache entries. -/
theorem C4_counterexample :
    delete_review (ApiOutcome.resp 200 (0 : Nat) "") = true ∧
    (review_delete_click (ApiOutcome.resp 200 (0 : Nat) "")
        ([(("https://shop.example", "ck", "cs", 1, 20), 7, 0)] : Cache Nat)).1 =
      [(("https://shop.example", "ck", "cs", 1, 20), 7, 0)] ∧
    ([(("https://shop.example", "ck", "cs", 1, 20), 7, 0)] : Cache Nat) ≠ [] := by
  refine ⟨rfl, rfl, by decide⟩

/-- C4 amended: every successful PRODUCT mutation flow clears the cache
unconditionally — the product edit submit, the add-variation submit,
the trash and permanent delete buttons (on success), and the bulk
upload (after the batch, whatever the outcomes) — while the review
handlers (approve, spam, delete) never touch the cache even on
success. -/
theorem C4_amended_cache_invalidation {v a : Type} (o : ApiOutcome a) (c : Cache v) :
    ((update_product o).1 = true → listing_update_submit o c = []) ∧
    ((create_variation o).1 = true → add_variation_submit o c = []) ∧
    ((delete_product o false).1 = true → trash_product_click o c = []) ∧
    ((delete_product o true).1 = true → permanent_delete_click o c = []) ∧
    bulk_upload_finish c = [] ∧
    review_approve_click o c = (c, update_review o) ∧
    review_spam_click o c = (c, update_review o) ∧
    review_delete_click o c = (c, delete_review o) := by
  refine ⟨fun h => by simp [listing_update_submit, h, invalidate],
    fun h => by simp [add_variation_submit, h, invalidate],
    fun h => by simp [trash_product_click, h, invalidate],
    fun h => by simp [permanent_delete_click, h, invalidate],
    rfl, rfl, rfl, rfl⟩

/-- Witness for C4 at concrete outcomes and a concrete cache. -/
theorem C4_witness :
    ((update_product (ApiOutcome.resp 200 (0 : Nat) "")).1 = true →
      listing_update_submit (ApiOutcome.resp 200 (0 : Nat) "")
        ([(("https://shop.example", "ck", "cs", 1, 20), 7, 0)] : Cache Nat) = []) ∧
    ((create_variation (ApiOutcome.resp 200 (0 : Nat) "")).1 = true →
      add_variation_submit (ApiOutcome.resp 200 (0 : Nat) "")
        ([(("https://shop.example", "ck", "cs", 1, 20), 7, 0)] : Cache Nat) = []) ∧
    ((delete_product (ApiOutcome.resp 200 (0 : Nat) "") false).1 = true →
      trash_product_click (ApiOutcome.resp 200 (0 : Nat) "")
        ([(("https://shop.example", "ck", "cs", 1, 20), 7, 0)] : Cache Nat) = []) ∧
    ((delete_product (ApiOutcome.resp 200 (0 : Nat) "") true).1 = true →
      permanent_delete_click (ApiOutcome.resp 200 (0 : Nat) "")
        ([(("https://shop.example", "ck", "cs", 1, 20), 7, 0)] : Cache Nat) = []) ∧
    bulk_upload_finish ([(("https://shop.example", "ck", "cs", 1, 20), 7, 0)] : Cache Nat)
      = [] ∧
    review_approve_click (ApiOutcome.resp 200 (0 : Nat) "")
        ([(("https://shop.example", "ck", "cs", 1, 20), 7, 0)] : Cache Nat) =
      ([(("https://shop.example", "ck", "cs", 1, 20), 7, 0)],
        update_review (ApiOutcome.resp 200 (0 : Nat) "")) ∧
    review_spam_click (ApiOutcome.resp 200 (0 : Nat) "")
        ([(("https://shop.example", "ck", "cs", 1, 20), 7, 0)] : Cache Nat) =
      ([(("https://shop.example", "ck", "cs", 1, 20), 7, 0)],
        update_review (ApiOutcome.resp 200 (0 : Nat) "")) ∧
    review_delete_click (ApiOutcome.resp 200 (0 : Nat) "")
        ([(("https://shop.example", "ck", "cs", 1, 20), 7, 0)] : Cache Nat) =
      ([(("https://shop.example", "ck", "cs", 1, 20), 7, 0)],
        delete_review (ApiOutcome.resp 200 (0 : Nat) "")) :=
  C4_amended_cache_invalidation (ApiOutcome.resp 200 (0 : Nat) "")
    [(("https://shop.example", "ck", "cs", 1, 20), 7, 0)]

/- ----- C5 ----- -/

/-- C5 counterexample: two distinct Transport-level failures — a 404
with body "Not Found" and a 500 with body "Internal Server Error" —
produce the same result None from get_product_by_id, so the failure
indicator of the read path carries neither the HTTP status nor the raw
body, refuting the claim that every Transport-level call returns a
failure indicator carrying them. -/
theorem C5_counterexample :
    get_product_by_id (ApiOutcome.resp 404 (0 : Nat) "Not Found") =
      get_product_by_id (ApiOutcome.resp 500 (0 : Nat) "Internal Server Error") ∧
    get_product_by_id (ApiOutcome.resp 404 (0 : Nat) "Not Found") = none := by
  exact ⟨rfl, rfl⟩

/-- C5 amended: each Transport-level read call never raises past its
boundary (an exception is absorbed), but on failure (non-200 status or
exception) the read helpers return data-only sentinels — None from
get_product_by_id, [] from get_orders, ([], 0) from the single-page
products fetch — which drop the HTTP status and the response body;
only the mutation helpers preserve the raw response or exception
text. -/
theorem C5_amended_read_path_sentinels {a b : Type} (s : Nat) (j : a) (jl : List a)
    (jp : List b) (t m : String) (total : Option Nat) :
    (s ≠ 200 → get_product_by_id (ApiOutcome.resp s j t) = none) ∧
    get_product_by_id (ApiOutcome.exc m : ApiOutcome a) = none ∧
    (s ≠ 200 → get_orders (ApiOutcome.resp s jl t) = []) ∧
    get_orders (ApiOutcome.exc m : ApiOutcome (List a)) = [] ∧
    (s ≠ 200 → get_products_page (ProductsPageOutcome.resp s jp t total) = ([], 0)) ∧
    get_products_page (ProductsPageOutcome.exc m : ProductsPageOutcome b) = ([], 0) ∧
    (s ≠ 200 → update_product (ApiOutcome.resp s j t) = (false, Sum.inr t)) := by
  refine ⟨fun h => by simp [get_product_by_id, h], rfl,
    fun h => by simp [get_orders, h], rfl,
    fun h => by simp [get_products_page, h], rfl,
    fun h => by simp [update_product, h]⟩

/-- Witness for C5 at a concrete 404 failure. -/
theorem C5_witness :
    (404 ≠ 200 → get_product_by_id (ApiOutcome.resp 404 (0 : Nat) "Not Found") = none) ∧
    get_product_by_id (ApiOutcome.exc "timeout" : ApiOutcome Nat) = none ∧
    (404 ≠ 200 → get_orders (ApiOutcome.resp 404 [(0 : Nat)] "Not Found") = []) ∧
    get_orders (ApiOutcome.exc "timeout" : ApiOutcome (List Nat)) = [] ∧
    (404 ≠ 200 →
      get_products_page (ProductsPageOutcome.resp 404 [(0 : Nat)] "Not Found" none)
        = ([], 0)) ∧
    get_products_page (ProductsPageOutcome.exc "timeout" : ProductsPageOutcome Nat)
      = ([], 0) ∧
    (404 ≠ 200 →
      update_product (ApiOutcome.resp 404 (0 : Nat) "Not Found") =
        (false, Sum.inr "Not Found")) :=
  C5_amended_read_path_sentinels 404 0 [0] [0] "Not Found" "timeout" none

end Desbord
